import Mathlib

/-!
Verification development for the Carryover streak/hopper server
(`src/server.js`).  The definitions below are a shallow embedding of the
date utilities, the task normalizer, the securing rule, the rollover
engine and the hopper-addition API route.  JavaScript numbers are
modelled exactly: finite values as rationals, with `nan` / `posInf` /
`negInf` as extra points where the code can produce or consume them.
Impure inputs of the JavaScript code (`Date.now()`, `localDateKey()`,
`crypto.randomUUID()`) are passed as explicit parameters.
-/

-- The Batteries rational operations are `@[irreducible]`, which blocks
-- `decide` on concrete states; restore default reducibility for them.
attribute [local semireducible] Rat.add Rat.sub Rat.mul Rat.inv Rat.ofScientific

namespace Carryover

/-! ## JavaScript values and numbers -/

/-- A JavaScript number: a finite value (modelled exactly as a rational)
or one of the non-finite values. -/
inductive JSNum where
  | fin (q : ℚ)
  | nan
  | posInf
  | negInf
deriving DecidableEq

/-- JavaScript `Number.isFinite`. -/
def JSNum.isFinite : JSNum → Bool
  | .fin _ => true
  | _ => false

/-- JavaScript `+` on numbers. -/
def jsAdd : JSNum → JSNum → JSNum
  | .fin a, .fin b => .fin (a + b)
  | .nan, _ => .nan
  | _, .nan => .nan
  | .posInf, .negInf => .nan
  | .negInf, .posInf => .nan
  | .posInf, _ => .posInf
  | _, .posInf => .posInf
  | .negInf, _ => .negInf
  | _, .negInf => .negInf

/-- JavaScript `>` on numbers: any comparison with `NaN` is false. -/
def jsGt : JSNum → JSNum → Bool
  | .fin a, .fin b => decide (b < a)
  | .nan, _ => false
  | _, .nan => false
  | .posInf, .posInf => false
  | .posInf, _ => true
  | .negInf, _ => false
  | .fin _, .posInf => false
  | .fin _, .negInf => true

/-- A primitive JavaScript value as it can appear in a field of a record
parsed from JSON (or hand-corrupted state).  `obj` stands for a plain
object or array that `Number(·)` coerces to `NaN`. -/
inductive JSPrim where
  | undef
  | null
  | bool (b : Bool)
  | num (n : JSNum)
  | str (s : String)
  | obj
deriving DecidableEq

def JSPrim.isStr : JSPrim → Bool
  | .str _ => true
  | _ => false

def JSPrim.isNum : JSPrim → Bool
  | .num _ => true
  | _ => false

def JSPrim.isBool : JSPrim → Bool
  | .bool _ => true
  | _ => false

/-- JavaScript whitespace trim (`String.prototype.trim`), on the
character list of a string. -/
def jsTrim (s : String) : String :=
  String.mk (((s.data.dropWhile Char.isWhitespace).reverse.dropWhile Char.isWhitespace).reverse)

/-- JavaScript `<` on strings: lexicographic comparison of code units. -/
def jsStrLt (a b : String) : Prop := a.data < b.data

instance (a b : String) : Decidable (jsStrLt a b) := by
  unfold jsStrLt; infer_instance

/-- Digit value of a character. -/
def digitVal (c : Char) : ℕ := c.toNat - 48

/-- Value of a digit string (most significant first). -/
def digitsVal (cs : List Char) : ℕ :=
  cs.foldl (fun a c => a * 10 + digitVal c) 0

/-- The decimal fragment of JavaScript `ToNumber` on strings: trimmed
empty string is `0`; an optional sign followed by digits, with an
optional fraction part, is the denoted decimal; everything else is
modelled as `NaN`.  (The real coercion also accepts exponents, hex and
`Infinity`; those spellings are not needed by any theorem below.) -/
def parseDecimal (s : String) : JSNum :=
  match (jsTrim s).data with
  | [] => .fin 0
  | cs =>
    let (sign, rest) : ℚ × List Char :=
      match cs with
      | '-' :: r => (-1, r)
      | '+' :: r => (1, r)
      | r => (1, r)
    let intPart := rest.takeWhile Char.isDigit
    let rest2 := rest.dropWhile Char.isDigit
    match rest2 with
    | [] => if intPart.isEmpty then .nan else .fin (sign * (digitsVal intPart : ℚ))
    | '.' :: frac =>
      if frac.all Char.isDigit ∧ ¬ (intPart.isEmpty ∧ frac.isEmpty) then
        .fin (sign * ((digitsVal intPart : ℚ) + (digitsVal frac : ℚ) / 10 ^ frac.length))
      else .nan
    | _ => .nan

/-- JavaScript `Number(v)` on a primitive value. -/
def jsToNumber : JSPrim → JSNum
  | .undef => .nan
  | .null => .fin 0
  | .bool b => .fin (if b then 1 else 0)
  | .num n => n
  | .str s => parseDecimal s
  | .obj => .nan

/-- The helper `asSafeNumber(v, fallback)` from `server.js`: coerce with `Number`
and replace non-finite results by the fallback. -/
def asSafeNumber (v : JSPrim) (fallback : JSNum) : JSNum :=
  match jsToNumber v with
  | .fin q => .fin q
  | _ => fallback

/-- JavaScript `Number.EPSILON`. -/
def NUMBER_EPSILON : ℚ := 1 / 2 ^ 52

/-- JavaScript `Math.round`: round half towards positive infinity. -/
def jsRound (q : ℚ) : ℤ := Int.floor (q + mkRat 1 2)

/-- The helper `roundTo(n, digits = 6)` from `server.js`: non-finite numbers are
mapped to `0`, finite ones are rounded to `digits` decimal places after
a `Number.EPSILON` nudge. -/
def roundTo (n : JSNum) (digits : ℕ := 6) : ℚ :=
  match n with
  | .fin q => (jsRound ((q + NUMBER_EPSILON) * 10 ^ digits) : ℚ) / 10 ^ digits
  | _ => 0

/-- JavaScript `Math.max` on two finite numbers. -/
def jsMax (a b : ℚ) : ℚ := if a < b then b else a

/-! ## Date / day-key utilities -/

/-- Parse a `YYYY-MM-DD` day key, i.e. the regex
`/^\d{4}-\d{2}-\d{2}$/` together with the `Number(...)` conversions of
its three groups. -/
def parseDayKey (s : String) : Option (ℕ × ℕ × ℕ) :=
  match s.data with
  | [y1, y2, y3, y4, '-', m1, m2, '-', d1, d2] =>
    if (y1.isDigit && y2.isDigit && y3.isDigit && y4.isDigit
        && m1.isDigit && m2.isDigit && d1.isDigit && d2.isDigit) then
      some (digitsVal [y1, y2, y3, y4], digitsVal [m1, m2], digitsVal [d1, d2])
    else none
  | _ => none

/-- Does a string match the day-key regex `/^\d{4}-\d{2}-\d{2}$/`? -/
def isDayKeyFormat (s : String) : Bool := (parseDayKey s).isSome

/-- Days since the Unix epoch of a proleptic-Gregorian civil date
(`m` between 1 and 12), as computed by JavaScript `Date` internals. -/
def daysFromCivil (y m d : ℤ) : ℤ :=
  let y' := y - (if m ≤ 2 then 1 else 0)
  let era := Int.fdiv y' 400
  let yoe := y' - era * 400
  let doy := Int.fdiv (153 * (m + (if 2 < m then -3 else 9)) + 2) 5 + d - 1
  let doe := yoe * 365 + Int.fdiv yoe 4 - Int.fdiv yoe 100 + doy
  era * 146097 + doe - 719468

/-- The civil date of an epoch day count (inverse of `daysFromCivil`). -/
def civilFromDays (z : ℤ) : ℤ × ℤ × ℤ :=
  let z' := z + 719468
  let era := Int.fdiv z' 146097
  let doe := z' - era * 146097
  let yoe := Int.fdiv (doe - Int.fdiv doe 1460 + Int.fdiv doe 36524 - Int.fdiv doe 146096) 365
  let y := yoe + era * 400
  let doy := doe - (365 * yoe + Int.fdiv yoe 4 - Int.fdiv yoe 100)
  let mp := Int.fdiv (5 * doy + 2) 153
  let da := doy - Int.fdiv (153 * mp + 2) 5 + 1
  let mo := if mp < 10 then mp + 3 else mp - 9
  (y + (if mo ≤ 2 then 1 else 0), mo, da)

/-- The value `Date.UTC(y, mo - 1, da) / 86400000` for the three parsed day-key
groups, including `Date`'s normalization of out-of-range months and
days and its mapping of two-digit years `0..99` to `1900..1999`. -/
def makeEpochDay (y mo da : ℕ) : ℤ :=
  let yr : ℤ := if y ≤ 99 then 1900 + (y : ℤ) else (y : ℤ)
  let m : ℤ := (mo : ℤ) - 1
  let ym := yr + Int.fdiv m 12
  let mn := Int.fmod m 12
  daysFromCivil ym (mn + 1) 1 + ((da : ℤ) - 1)

/-- The helper `pad2` from `server.js` (its argument is non-negative here). -/
def pad2 (n : ℤ) : String :=
  if n < 10 then String.append ("0") (toString n) else toString n

/-- The helper `dateKeyFromUTCDate`: format a civil date as `YYYY-MM-DD`. -/
def formatDayKey (y mo da : ℤ) : String :=
  String.append (toString y)
    (String.append ("-") (String.append (pad2 mo) (String.append ("-") (pad2 da))))

/-- The utility `addDaysKey(dateKey, days)` from `server.js`.  A malformed key falls
back to `localDateKey()`, passed here as `fallbackKey`. -/
def addDaysKey (fallbackKey : String) (dateKey : String) (days : ℤ) : String :=
  match parseDayKey dateKey with
  | none => fallbackKey
  | some (y, mo, da) =>
    let c := civilFromDays (makeEpochDay y mo da + days)
    formatDayKey c.1 c.2.1 c.2.2

/-- The utility `dayNumberUTC(dateKey)` from `server.js`.  A malformed key falls
back to `Math.floor(Date.now() / 86400000)`, passed here as
`nowDays`. -/
def dayNumberUTC (nowDays : ℤ) (dateKey : String) : ℤ :=
  match parseDayKey dateKey with
  | none => nowDays
  | some (y, mo, da) => makeEpochDay y mo da

/-- The utility `dayDiff(fromKey, toKey)` from `server.js`. -/
def dayDiff (nowDays : ℤ) (fromKey toKey : String) : ℤ :=
  dayNumberUTC nowDays toKey - dayNumberUTC nowDays fromKey

/-! ## The task entity -/

/-- A task record, with the fields of `server.js`.  `hopper` and
`streak` are JavaScript numbers that every code path keeps finite, so
they are carried as rationals; timestamps are milliseconds. -/
structure Task where
  id : String
  name : String
  thumbnailUrl : Option String
  hopper : ℚ
  streak : ℚ
  dayKey : String
  securedToday : Bool
  createdAt : ℚ
  updatedAt : ℚ
  lastSecuredAt : Option ℚ
  lastSecuredReason : Option String
deriving DecidableEq

/-- The impure inputs of the engine: `Date.now()` in milliseconds, the
`Math.floor(Date.now() / 86400000)` fallback used by `dayNumberUTC` for
malformed keys, and the `localDateKey()` fallback used by `addDaysKey`
for malformed keys. -/
structure Env where
  now : ℚ
  nowDays : ℤ
  localToday : String
deriving DecidableEq

def DAILY_THRESHOLD : ℚ := 1

def EPS : ℚ := 1 / 10 ^ 9

/-- The securing rule `trySecureToday(task, reason)` from `server.js`, returning the
boolean result together with the updated task. -/
def trySecureToday (now : ℚ) (task : Task) (reason : String) : Bool × Task :=
  if task.securedToday then (false, task)
  else if DAILY_THRESHOLD - EPS ≤ task.hopper then
    (true,
     { task with
        securedToday := true
        streak := (if task.streak.den = 1 then task.streak else 0) + 1
        lastSecuredAt := some now
        lastSecuredReason := some reason })
  else (false, task)

/-! ## The rollover engine -/

/-- One iteration of the rollover loop in `processTaskToToday`
(`server.js` lines 301-323), acting on the task together with the
`changed` flag. -/
def rolloverStep (env : Env) (tc : Task × Bool) : Task × Bool :=
  let task := tc.1
  let changed := tc.2
  -- 1) End-of-day check: if not secured, streak breaks
  let task1 := if ¬ task.securedToday ∧ task.streak ≠ 0 then { task with streak := 0 } else task
  let changed1 := if ¬ task.securedToday ∧ task.streak ≠ 0 then true else changed
  -- 2) Daily decay: flat subtraction of one unit, clamped at zero
  let newHopper := task1.hopper - 1
  let changed2 := if newHopper ≠ task1.hopper then true else changed1
  let task2 := { task1 with hopper := jsMax 0 newHopper }
  -- 3) Move to next day; the `changed` flag is now unconditionally true
  let task3 := { task2 with dayKey := addDaysKey env.localToday task2.dayKey 1, securedToday := false }
  let changed3 := changed2 || true
  -- 4) Auto-secure the new day if the hopper is still at/above threshold
  let st := trySecureToday env.now task3 ("rollover")
  (st.2, if st.1 then true else changed3)

/-- The rollover loop run `n` times. -/
def runRollover (env : Env) : ℕ → Task × Bool → Task × Bool
  | 0, tc => tc
  | n + 1, tc => runRollover env n (rolloverStep env tc)

/-- The rollover engine `processTaskToToday(task, todayKey)` from `server.js`: repair a
malformed day key, clamp a day key that is ahead of today, then run one
rollover iteration per elapsed day.  Returns the updated task and the
`changed` flag. -/
def processTaskToToday (env : Env) (task : Task) (todayKey : String) : Task × Bool :=
  let changed := false
  let task1 :=
    if ¬ isDayKeyFormat task.dayKey then { task with dayKey := todayKey, securedToday := false }
    else task
  let changed1 := if ¬ isDayKeyFormat task.dayKey then true else changed
  -- If the clock changes backwards, clamp to today to avoid huge loops.
  let task2 :=
    if jsStrLt todayKey task1.dayKey then { task1 with dayKey := todayKey, securedToday := false }
    else task1
  let changed2 := if jsStrLt todayKey task1.dayKey then true else changed1
  let diff := dayDiff env.nowDays task2.dayKey todayKey
  if diff ≤ 0 then (task2, changed2)
  else runRollover env diff.toNat (task2, changed2)

/-! ## The task normalizer -/

/-- A raw task record as loaded from disk: every field an arbitrary
primitive value. -/
structure RawTask where
  id : JSPrim
  name : JSPrim
  thumbnailUrl : JSPrim
  hopper : JSPrim
  streak : JSPrim
  dayKey : JSPrim
  securedToday : JSPrim
  createdAt : JSPrim
  updatedAt : JSPrim
  lastSecuredAt : JSPrim
  lastSecuredReason : JSPrim
deriving DecidableEq

/-- The record `normalizeTask` substitutes for a non-object input
(`{}`: every field access yields `undefined`). -/
def emptyRawTask : RawTask :=
  { id := .undef, name := .undef, thumbnailUrl := .undef, hopper := .undef
    streak := .undef, dayKey := .undef, securedToday := .undef
    createdAt := .undef, updatedAt := .undef, lastSecuredAt := .undef
    lastSecuredReason := .undef }

/-- JavaScript `Number.isInteger`: true exactly on finite numbers with integral
value. -/
def jsIsInteger : JSPrim → Bool
  | .num (.fin q) => q.den = 1
  | _ => false

/-- The normalizer `normalizeTask(raw)` from `server.js`.  `freshId` stands for
`crypto.randomUUID()`, `now` for `Date.now()` and `todayKey` for
`localDateKey()`; `raw = none` models a `null` / non-object input. -/
def normalizeTask (freshId : String) (now : ℚ) (todayKey : String)
    (raw : Option RawTask) : Task :=
  let t := raw.getD emptyRawTask
  { id := match t.id with
      | .str s => if s ≠ "" then s else freshId
      | _ => freshId
    name := match t.name with
      | .str s => if jsTrim s ≠ "" then jsTrim s else ("Untitled task")
      | _ => ("Untitled task")
    thumbnailUrl := match t.thumbnailUrl with
      | .str s => if s.startsWith ("/uploads/") then some s else none
      | _ => none
    hopper := roundTo (asSafeNumber t.hopper (.fin 0))
    streak := match t.streak with
      | .num (.fin q) => if q.den = 1 then q else 0
      | _ => 0
    dayKey := match t.dayKey with
      | .str s => if isDayKeyFormat s then s else todayKey
      | _ => todayKey
    securedToday := match t.securedToday with
      | .bool b => b
      | _ => false
    createdAt := match t.createdAt with
      | .num (.fin q) => q
      | _ => now
    updatedAt := match t.updatedAt with
      | .num (.fin q) => q
      | _ => now
    lastSecuredAt := match t.lastSecuredAt with
      | .num (.fin q) => some q
      | _ => none
    lastSecuredReason := match t.lastSecuredReason with
      | .str s => some s
      | _ => none }

/-! ## The hopper-addition API route -/

/-- The global registry (`STATE` in `server.js`). -/
structure AppState where
  version : ℕ
  createdAt : ℚ
  updatedAt : ℚ
  backgroundUrl : Option String
  tasks : List Task
deriving DecidableEq

/-- Outcome of `POST /api/tasks/:id/add`. -/
inductive AddOutcome where
  | amountTooLarge
  | taskNotFound
  | ok (task : Task) (secured : Bool)
deriving DecidableEq

/-- Replace the first list entry satisfying `p` (mutation of the object
returned by `Array.prototype.find`). -/
def updateFirst (p : Task → Bool) (f : Task → Task) : List Task → List Task
  | [] => []
  | t :: ts => if p t then f t :: ts else t :: updateFirst p f ts

/-- The `POST /api/tasks/:id/add` route of `handleApi` (`server.js`
lines 548-587): validate the amount, look up the task, add to the
hopper, re-round, and invoke the securing rule with reason `"add"`.
`rawAmount` is the JSON `body.amount`. -/
def addRoute (st : AppState) (id : String) (rawAmount : JSPrim) (now : ℚ) :
    AddOutcome × AppState :=
  let amount := asSafeNumber rawAmount .nan
  if jsGt amount (.fin 1000000) then (.amountTooLarge, st)
  else
    match st.tasks.find? (fun t => t.id == id) with
    | none => (.taskNotFound, st)
    | some t =>
      let t := { t with hopper := roundTo (jsAdd (.fin t.hopper) amount), updatedAt := now }
      let st' := trySecureToday now t ("add")
      let t := st'.2
      let t := if st'.1 then { t with updatedAt := now } else t
      (.ok t st'.1,
       { st with
          tasks := updateFirst (fun x => x.id == id) (fun _ => t) st.tasks
          updatedAt := now })


/-! ## Concrete fixtures for witnesses and counterexamples -/

/-- A fixed environment: the local day is 2026-10-12 (epoch day 20738). -/
def env0 : Env := { now := 0, nowDays := 20738, localToday := "2026-10-12" }

/-- A plain freshly created task, aligned to 2026-10-12. -/
def baseTask : Task :=
  { id := "t1", name := "Task", thumbnailUrl := none, hopper := 0, streak := 0
    dayKey := "2026-10-12", securedToday := false, createdAt := 0, updatedAt := 0
    lastSecuredAt := none, lastSecuredReason := none }

/-- A task with hopper 3.5 and streak 5, three days behind 2026-10-12,
not secured. -/
def c1t : Task := { baseTask with hopper := 7 / 2, streak := 5, dayKey := "2026-10-09" }

/-- A task with hopper 2.5 and streak 3, one day behind 2026-10-12, not
secured. -/
def c3t : Task := { baseTask with hopper := 5 / 2, streak := 3, dayKey := "2026-10-11" }

/-- A task one day ahead of 2026-10-12 (clock moved backwards). -/
def c8t : Task := { baseTask with streak := 4, hopper := 2, dayKey := "2026-10-13", securedToday := true }

/-- A raw record with a wrong-typed value in every field.  Its `hopper`
is the string "-5", which `Number(·)` coerces to the finite value -5. -/
def rawBad : RawTask :=
  { id := .num .nan, name := .num (.fin 3), thumbnailUrl := .bool true
    hopper := .str ("-5"), streak := .str ("x"), dayKey := .num .nan
    securedToday := .num (.fin 1), createdAt := .str (""), updatedAt := .bool false
    lastSecuredAt := .obj, lastSecuredReason := .undef }

/-- Every field of the record holds a value of the wrong type:
no string where the task wants a string, no number where it wants a
number, no boolean where it wants a boolean. -/
def RawTask.allWrongTyped (r : RawTask) : Prop :=
  r.id.isStr = false ∧ r.name.isStr = false ∧ r.thumbnailUrl.isStr = false ∧
  r.hopper.isNum = false ∧ r.streak.isNum = false ∧ r.dayKey.isStr = false ∧
  r.securedToday.isBool = false ∧ r.createdAt.isNum = false ∧
  r.updatedAt.isNum = false ∧ r.lastSecuredAt.isNum = false ∧
  r.lastSecuredReason.isStr = false

instance (r : RawTask) : Decidable r.allWrongTyped := by
  unfold RawTask.allWrongTyped; infer_instance

/-- A task with a small hopper and positive streak, one day behind
2026-10-12, not secured: its streak must break. -/
def c3w : Task := { baseTask with hopper := 3 / 2, streak := 7, dayKey := "2026-10-11" }

/-- A registry holding just `baseTask`. -/
def st0 : AppState :=
  { version := 1, createdAt := 0, updatedAt := 0, backgroundUrl := none, tasks := [baseTask] }

/-! ## Helper lemmas about the engine -/

theorem jsMax_zero_nonneg (a : ℚ) : 0 ≤ jsMax 0 a := by
  unfold jsMax; split_ifs with h
  · exact le_of_lt h
  · exact le_rfl

theorem jsMax_eq_max (a b : ℚ) : jsMax a b = max a b := by
  unfold jsMax
  rw [max_def]
  split_ifs with h1 h2 h2
  · rfl
  · exact absurd (le_of_lt h1) h2
  · exact le_antisymm h2 (le_of_not_lt h1)
  · rfl

theorem trySecureToday_hopper (now : ℚ) (t : Task) (r : String) :
    ((trySecureToday now t r).2).hopper = t.hopper := by
  unfold trySecureToday; split_ifs <;> rfl

theorem rolloverStep_hopper (env : Env) (tc : Task × Bool) :
    ((rolloverStep env tc).1).hopper = jsMax 0 (tc.1.hopper - 1) := by
  unfold rolloverStep
  dsimp only
  split_ifs <;> simp [trySecureToday_hopper]

theorem rolloverStep_securedToday (env : Env) (tc : Task × Bool) :
    ((rolloverStep env tc).1).securedToday =
      decide (DAILY_THRESHOLD - EPS ≤ jsMax 0 (tc.1.hopper - 1)) := by
  unfold rolloverStep trySecureToday
  dsimp only
  split_ifs <;> simp_all

theorem rolloverStep_streak_unsecured (env : Env) (tc : Task × Bool)
    (h : tc.1.securedToday = false) :
    ((rolloverStep env tc).1).streak =
      (if DAILY_THRESHOLD - EPS ≤ jsMax 0 (tc.1.hopper - 1) then 1 else 0) := by
  unfold rolloverStep trySecureToday
  dsimp only
  by_cases hs : tc.1.streak = 0 <;> split_ifs <;> simp_all

theorem rolloverStep_streak_secured (env : Env) (tc : Task × Bool)
    (h : tc.1.securedToday = true) :
    ((rolloverStep env tc).1).streak =
      (if DAILY_THRESHOLD - EPS ≤ jsMax 0 (tc.1.hopper - 1) then
        (if tc.1.streak.den = 1 then tc.1.streak else 0) + 1
      else tc.1.streak) := by
  unfold rolloverStep trySecureToday
  dsimp only
  split_ifs <;> simp_all

theorem runRollover_hopper_nonneg (env : Env) (n : ℕ) (tc : Task × Bool)
    (h : 0 ≤ tc.1.hopper) : 0 ≤ ((runRollover env n tc).1).hopper := by
  induction n generalizing tc with
  | zero => exact h
  | succ n ih =>
    exact ih _ (by rw [rolloverStep_hopper]; exact jsMax_zero_nonneg _)

theorem processTaskToToday_eq (env : Env) (t : Task) (todayKey : String)
    (hfmt : isDayKeyFormat t.dayKey = true) (hahead : ¬ jsStrLt todayKey t.dayKey) :
    processTaskToToday env t todayKey =
      (if dayDiff env.nowDays t.dayKey todayKey ≤ 0 then (t, false)
       else runRollover env (dayDiff env.nowDays t.dayKey todayKey).toNat (t, false)) := by
  unfold processTaskToToday
  simp [hfmt, hahead]

theorem roundTo_nonneg (q : ℚ) (h : 0 ≤ q) : 0 ≤ roundTo (.fin q) := by
  unfold roundTo jsRound
  have h1 : (0 : ℤ) ≤ ⌊(q + NUMBER_EPSILON) * 10 ^ 6 + 1 / 2⌋ := by
    rw [Int.le_floor]
    push_cast
    have : (0 : ℚ) ≤ (q + NUMBER_EPSILON) * 10 ^ 6 := by
      apply mul_nonneg
      · have : (0 : ℚ) ≤ NUMBER_EPSILON := by unfold NUMBER_EPSILON; positivity
        linarith
      · norm_num
    linarith
  have h2 : (0 : ℚ) ≤ (⌊(q + NUMBER_EPSILON) * 10 ^ 6 + 1 / 2⌋ : ℚ) := by exact_mod_cast h1
  positivity


/-! ## The claims -/

/-- Claim C2: each rollover iteration's decay step subtracts a flat
penalty of exactly 1.0 from the task's hopper (not a 10% multiplicative
decay) and clamps the result at a minimum of 0: for every iteration the
post-decay hopper equals `max 0 (pre-decay hopper - 1)` (the securing
step never touches the hopper). -/
theorem c2_decay_flat_subtraction (env : Env) (tc : Task × Bool) :
    ((rolloverStep env tc).1).hopper = max 0 (tc.1.hopper - 1) := by
  rw [rolloverStep_hopper, jsMax_eq_max]

/-- Claim C4: once a task is caught up, `processTaskToToday` is a pure
no-op.  Whenever the task's day key is well-formed, not ahead of today,
and `dayDiff` reports no elapsed days, the call returns the task
unchanged and reports no change, so a second call with the same today
key is idempotent. -/
theorem c4_idempotent_when_caught_up (env : Env) (t : Task) (todayKey : String)
    (hfmt : isDayKeyFormat t.dayKey = true)
    (hahead : ¬ jsStrLt todayKey t.dayKey)
    (hdiff : dayDiff env.nowDays t.dayKey todayKey ≤ 0) :
    processTaskToToday env t todayKey = (t, false) := by
  rw [processTaskToToday_eq env t todayKey hfmt hahead, if_pos hdiff]

/-- Witness for C4: a task aligned to today is untouched. -/
theorem c4_witness : processTaskToToday env0 baseTask ("2026-10-12") = (baseTask, false) :=
  c4_idempotent_when_caught_up env0 baseTask ("2026-10-12") (by decide) (by decide) (by decide)

/-- Claim C6: for every task with a non-negative hopper, the hopper is
never negative after `processTaskToToday` runs any number of rollover
iterations (each iteration clamps the decayed value at 0). -/
theorem c6_hopper_stays_nonneg (env : Env) (t : Task) (todayKey : String)
    (h : 0 ≤ t.hopper) :
    0 ≤ ((processTaskToToday env t todayKey).1).hopper := by
  unfold processTaskToToday
  dsimp only
  split_ifs <;>
    first
      | exact h
      | exact runRollover_hopper_nonneg _ _ _ h

/-- Witness for C6: a three-day catch-up keeps the hopper
non-negative. -/
theorem c6_witness : 0 ≤ ((processTaskToToday env0 c1t ("2026-10-12")).1).hopper :=
  c6_hopper_stays_nonneg env0 c1t ("2026-10-12") (by decide)

/-- Claim C8: for a task whose well-formed day key is ahead of today
(clock moved backward), `processTaskToToday` clamps the day key to
today and clears `securedToday` without running any rollover iteration;
all other fields (hopper, streak, timestamps) are untouched. -/
theorem c8_backward_clock_clamped (env : Env) (t : Task) (todayKey : String)
    (hfmt : isDayKeyFormat t.dayKey = true)
    (hahead : jsStrLt todayKey t.dayKey) :
    processTaskToToday env t todayKey =
      ({ t with dayKey := todayKey, securedToday := false }, true) := by
  unfold processTaskToToday
  dsimp only
  simp [hfmt, hahead, dayDiff]

/-- Witness for C8: a task dated 2026-10-13 seen on 2026-10-12 is
clamped. -/
theorem c8_witness :
    processTaskToToday env0 c8t ("2026-10-12") =
      ({ c8t with dayKey := "2026-10-12", securedToday := false }, true) :=
  c8_backward_clock_clamped env0 c8t ("2026-10-12") (by decide) (by decide)


theorem trySecureToday_below (now : ℚ) (t : Task) (reason : String)
    (h : t.hopper < DAILY_THRESHOLD - EPS) :
    trySecureToday now t reason = (false, t) := by
  unfold trySecureToday
  split_ifs with h1 h2 h3
  · rfl
  · exact absurd h2 (not_le.mpr h)
  · exact absurd h2 (not_le.mpr h)
  · rfl

/-- Claim C5: `trySecureToday` secures a task if and only if
`securedToday` is false and the hopper is at least `1.0 - 1e-9`; when
it secures, it sets `securedToday`, increments the streak by exactly 1,
stamps `lastSecuredAt` and the reason, and returns true; on an
already-secured task it is a no-op returning false; a hopper of
`0.999999999` secures while a hopper of `0.99` does not. -/
theorem c5_securing_rule (now : ℚ) (t : Task) (reason : String) :
    ((trySecureToday now t reason).1 = true ↔
        t.securedToday = false ∧ DAILY_THRESHOLD - EPS ≤ t.hopper) ∧
    (t.securedToday = true → trySecureToday now t reason = (false, t)) ∧
    (t.securedToday = false → DAILY_THRESHOLD - EPS ≤ t.hopper →
      (trySecureToday now t reason).2 =
        { t with
            securedToday := true
            streak := (if t.streak.den = 1 then t.streak else 0) + 1
            lastSecuredAt := some now
            lastSecuredReason := some reason } ∧
      (t.streak.den = 1 → ((trySecureToday now t reason).2).streak = t.streak + 1)) ∧
    (t.hopper = 999999999 / 10 ^ 9 → t.securedToday = false →
      (trySecureToday now t reason).1 = true) ∧
    (t.hopper = 99 / 100 → (trySecureToday now t reason).1 = false) := by
  refine ⟨?_, ?_, ?_, ?_, ?_⟩
  · unfold trySecureToday
    split_ifs with h1 h2 h3 <;> simp_all
  · intro hsec
    unfold trySecureToday
    rw [if_pos hsec]
  · intro hsec hth
    unfold trySecureToday
    rw [if_neg (by simp [hsec]), if_pos hth]
    exact ⟨rfl, fun hden => by simp [hden]⟩
  · intro hh hsec
    unfold trySecureToday
    rw [if_neg (by simp [hsec]), if_pos (by rw [hh]; norm_num [DAILY_THRESHOLD, EPS])]
  · intro hh
    unfold trySecureToday
    split_ifs with h1 h2
    · rfl
    · rw [hh] at h2; norm_num [DAILY_THRESHOLD, EPS] at h2
    · rfl

/-- Witness for C5: a task whose hopper is within epsilon of the
threshold is secured, its streak incremented from 0 to 1. -/
theorem c5_witness :
    ((trySecureToday 0 { baseTask with hopper := 999999999 / 10 ^ 9 } ("add")).1 = true ↔
        ({ baseTask with hopper := 999999999 / 10 ^ 9 } : Task).securedToday = false ∧
          DAILY_THRESHOLD - EPS ≤ ({ baseTask with hopper := 999999999 / 10 ^ 9 } : Task).hopper) ∧
    (({ baseTask with hopper := 999999999 / 10 ^ 9 } : Task).securedToday = true →
      trySecureToday 0 { baseTask with hopper := 999999999 / 10 ^ 9 } ("add") =
        (false, { baseTask with hopper := 999999999 / 10 ^ 9 })) ∧
    (({ baseTask with hopper := 999999999 / 10 ^ 9 } : Task).securedToday = false →
      DAILY_THRESHOLD - EPS ≤ ({ baseTask with hopper := 999999999 / 10 ^ 9 } : Task).hopper →
      (trySecureToday 0 { baseTask with hopper := 999999999 / 10 ^ 9 } ("add")).2 =
        { { baseTask with hopper := 999999999 / 10 ^ 9 } with
            securedToday := true
            streak := (if ({ baseTask with hopper := 999999999 / 10 ^ 9 } : Task).streak.den = 1 then
                ({ baseTask with hopper := 999999999 / 10 ^ 9 } : Task).streak else 0) + 1
            lastSecuredAt := some 0
            lastSecuredReason := some ("add") } ∧
      (({ baseTask with hopper := 999999999 / 10 ^ 9 } : Task).streak.den = 1 →
        ((trySecureToday 0 { baseTask with hopper := 999999999 / 10 ^ 9 } ("add")).2).streak =
          ({ baseTask with hopper := 999999999 / 10 ^ 9 } : Task).streak + 1)) ∧
    (({ baseTask with hopper := 999999999 / 10 ^ 9 } : Task).hopper = 999999999 / 10 ^ 9 →
      ({ baseTask with hopper := 999999999 / 10 ^ 9 } : Task).securedToday = false →
      (trySecureToday 0 { baseTask with hopper := 999999999 / 10 ^ 9 } ("add")).1 = true) ∧
    (({ baseTask with hopper := 999999999 / 10 ^ 9 } : Task).hopper = 99 / 100 →
      (trySecureToday 0 { baseTask with hopper := 999999999 / 10 ^ 9 } ("add")).1 = false) :=
  c5_securing_rule 0 { baseTask with hopper := 999999999 / 10 ^ 9 } ("add")

/-- Claim C9: the hopper-addition route rejects its two error cases
before any mutation: an amount above the configured maximum yields
`amountTooLarge` and an unknown task id yields `taskNotFound`, and in
either case the registry (every task and every timestamp) is left
completely unchanged. -/
theorem c9_add_error_paths_no_mutation (st : AppState) (id : String) (rawAmount : JSPrim)
    (now : ℚ)
    (h : jsGt (asSafeNumber rawAmount .nan) (.fin 1000000) = true ∨
         st.tasks.find? (fun t => t.id == id) = none) :
    (addRoute st id rawAmount now).2 = st ∧
      ((addRoute st id rawAmount now).1 = .amountTooLarge ∨
       (addRoute st id rawAmount now).1 = .taskNotFound) := by
  unfold addRoute
  dsimp only
  by_cases hg : jsGt (asSafeNumber rawAmount .nan) (.fin 1000000) = true
  · simp [hg]
  · have hn : st.tasks.find? (fun t => t.id == id) = none := by
      rcases h with h | h
      · exact absurd h hg
      · exact h
    simp [hg, hn]

/-- Witness for C9: an unknown task id is rejected with the registry
untouched. -/
theorem c9_witness :
    (addRoute st0 ("missing") .null 0).2 = st0 ∧
      ((addRoute st0 ("missing") .null 0).1 = .amountTooLarge ∨
       (addRoute st0 ("missing") .null 0).1 = .taskNotFound) :=
  c9_add_error_paths_no_mutation st0 ("missing") .null 0 (Or.inr (by decide))

/-- Claim C10: a non-finite amount (for example a non-numeric value
coerced to `NaN`) is not caught by the too-large check, because
`NaN > 1000000` is false; the addition then makes the hopper `NaN` and
`roundTo` maps it to exactly 0, so the call succeeds and resets the
task's hopper to 0 — a finite value, as for every input amount, since
`roundTo` always returns a rational. -/
theorem c10_nonfinite_amount_resets_hopper (st : AppState) (id : String) (rawAmount : JSPrim)
    (now : ℚ) (t0 : Task)
    (h1 : (jsToNumber rawAmount).isFinite = false)
    (h2 : st.tasks.find? (fun t => t.id == id) = some t0) :
    asSafeNumber rawAmount .nan = .nan ∧
    jsGt (asSafeNumber rawAmount .nan) (.fin 1000000) = false ∧
    (addRoute st id rawAmount now).1 = .ok ({ t0 with hopper := 0, updatedAt := now }) false ∧
    (addRoute st id rawAmount now).2 =
      { st with
          tasks := updateFirst (fun x => x.id == id)
            (fun _ => { t0 with hopper := 0, updatedAt := now }) st.tasks
          updatedAt := now } := by
  have hnan : asSafeNumber rawAmount .nan = .nan := by
    unfold asSafeNumber
    cases hj : jsToNumber rawAmount <;> simp_all [JSNum.isFinite]
  have hround : roundTo (jsAdd (.fin t0.hopper) .nan) = 0 := rfl
  have hts : trySecureToday now ({ t0 with hopper := 0, updatedAt := now }) ("add") =
      (false, { t0 with hopper := 0, updatedAt := now }) := by
    apply trySecureToday_below
    show (0 : ℚ) < DAILY_THRESHOLD - EPS
    norm_num [DAILY_THRESHOLD, EPS]
  refine ⟨hnan, by rw [hnan]; rfl, ?_, ?_⟩ <;>
  · unfold addRoute
    dsimp only
    rw [hnan]
    simp [h2, hts, hround, jsGt]


/-- Witness for C10: a missing amount (`undefined`, coerced to `NaN`)
succeeds and resets the hopper of `baseTask` to 0. -/
theorem c10_witness :
    asSafeNumber .undef .nan = .nan ∧
    jsGt (asSafeNumber .undef .nan) (.fin 1000000) = false ∧
    (addRoute st0 ("t1") .undef 0).1 = .ok ({ baseTask with hopper := 0, updatedAt := 0 }) false ∧
    (addRoute st0 ("t1") .undef 0).2 =
      { st0 with
          tasks := updateFirst (fun x => x.id == "t1")
            (fun _ => { baseTask with hopper := 0, updatedAt := 0 }) st0.tasks
          updatedAt := 0 } :=
  c10_nonfinite_amount_resets_hopper st0 ("t1") .undef 0 baseTask (by decide) (by decide)

/-- Counterexample for C1 as stated: a task three days behind with
hopper 3.5, unsecured and a pre-loop streak of 5 ends the catch-up with
streak 2, not 5 + 2 — the first iteration's end-of-day check resets the
unsecured streak to 0 before the two auto-secures. -/
theorem c1_counterexample :
    c1t.hopper = 7 / 2 ∧ c1t.securedToday = false ∧
    dayDiff env0.nowDays c1t.dayKey ("2026-10-12") = 3 ∧
    c1t.streak = 5 ∧
    ((processTaskToToday env0 c1t ("2026-10-12")).1).streak = 2 ∧
    ((processTaskToToday env0 c1t ("2026-10-12")).1).streak ≠ c1t.streak + 2 := by
  decide

/-- Claim C1 (amended): for a task 3 days behind today with hopper 3.5
and unsecured, `processTaskToToday` performs exactly 3 sequential
iterations: iteration 1 decays the hopper to 2.5 and auto-secures,
leaving streak 1 (any nonzero pre-loop streak was first reset to 0 by
the end-of-day check, so the final streak is "pre-loop + 2" only when
the pre-loop streak was 0); iteration 2 decays to 1.5 and auto-secures
(streak 2); iteration 3 decays to 0.5 with no auto-secure; the final
state is hopper 0.5, streak 2, securedToday false. -/
theorem c1_multi_day_catchup (env : Env) (t : Task) (todayKey : String)
    (hfmt : isDayKeyFormat t.dayKey = true)
    (hahead : ¬ jsStrLt todayKey t.dayKey)
    (hdiff : dayDiff env.nowDays t.dayKey todayKey = 3)
    (hh : t.hopper = 7 / 2)
    (hs : t.securedToday = false) :
    processTaskToToday env t todayKey =
      rolloverStep env (rolloverStep env (rolloverStep env (t, false))) ∧
    ((rolloverStep env (t, false)).1).hopper = 5 / 2 ∧
    ((rolloverStep env (t, false)).1).securedToday = true ∧
    ((rolloverStep env (t, false)).1).streak = 1 ∧
    ((rolloverStep env (rolloverStep env (t, false))).1).hopper = 3 / 2 ∧
    ((rolloverStep env (rolloverStep env (t, false))).1).securedToday = true ∧
    ((rolloverStep env (rolloverStep env (t, false))).1).streak = 2 ∧
    ((processTaskToToday env t todayKey).1).hopper = 1 / 2 ∧
    ((processTaskToToday env t todayKey).1).streak = 2 ∧
    ((processTaskToToday env t todayKey).1).securedToday = false := by
  have heq : processTaskToToday env t todayKey =
      rolloverStep env (rolloverStep env (rolloverStep env (t, false))) := by
    rw [processTaskToToday_eq env t todayKey hfmt hahead, hdiff, if_neg (by norm_num)]
    rfl
  have h1h : ((rolloverStep env (t, false)).1).hopper = 5 / 2 := by
    rw [rolloverStep_hopper]
    show jsMax 0 (t.hopper - 1) = 5 / 2
    rw [hh]; norm_num [jsMax]
  have h1s : ((rolloverStep env (t, false)).1).securedToday = true := by
    rw [rolloverStep_securedToday]
    show decide (DAILY_THRESHOLD - EPS ≤ jsMax 0 (t.hopper - 1)) = true
    rw [hh]
    norm_num [jsMax, DAILY_THRESHOLD, EPS]
  have h1k : ((rolloverStep env (t, false)).1).streak = 1 := by
    rw [rolloverStep_streak_unsecured env (t, false) hs]
    show (if DAILY_THRESHOLD - EPS ≤ jsMax 0 (t.hopper - 1) then (1 : ℚ) else 0) = 1
    rw [hh]
    norm_num [jsMax, DAILY_THRESHOLD, EPS]
  have h2h : ((rolloverStep env (rolloverStep env (t, false))).1).hopper = 3 / 2 := by
    rw [rolloverStep_hopper, h1h]; norm_num [jsMax]
  have h2s : ((rolloverStep env (rolloverStep env (t, false))).1).securedToday = true := by
    rw [rolloverStep_securedToday, h1h]
    norm_num [jsMax, DAILY_THRESHOLD, EPS]
  have hden1 : (1 : ℚ).den = 1 := rfl
  have h2k : ((rolloverStep env (rolloverStep env (t, false))).1).streak = 2 := by
    rw [rolloverStep_streak_secured env _ h1s, h1k, h1h]
    norm_num [jsMax, DAILY_THRESHOLD, EPS, hden1]
  have h3h : ((processTaskToToday env t todayKey).1).hopper = 1 / 2 := by
    rw [heq, rolloverStep_hopper, h2h]; norm_num [jsMax]
  have h3s : ((processTaskToToday env t todayKey).1).securedToday = false := by
    rw [heq, rolloverStep_securedToday, h2h]
    simp only [decide_eq_false_iff_not]
    norm_num [jsMax, DAILY_THRESHOLD, EPS]
  have h3k : ((processTaskToToday env t todayKey).1).streak = 2 := by
    rw [heq, rolloverStep_streak_secured env _ h2s, h2h, h2k]
    norm_num [jsMax, DAILY_THRESHOLD, EPS]
  exact ⟨heq, h1h, h1s, h1k, h2h, h2s, h2k, h3h, h3k, h3s⟩

/-- Witness for C1 (amended), on the concrete task `c1t`. -/
theorem c1_witness :
    processTaskToToday env0 c1t ("2026-10-12") =
      rolloverStep env0 (rolloverStep env0 (rolloverStep env0 (c1t, false))) ∧
    ((rolloverStep env0 (c1t, false)).1).hopper = 5 / 2 ∧
    ((rolloverStep env0 (c1t, false)).1).securedToday = true ∧
    ((rolloverStep env0 (c1t, false)).1).streak = 1 ∧
    ((rolloverStep env0 (rolloverStep env0 (c1t, false))).1).hopper = 3 / 2 ∧
    ((rolloverStep env0 (rolloverStep env0 (c1t, false))).1).securedToday = true ∧
    ((rolloverStep env0 (rolloverStep env0 (c1t, false))).1).streak = 2 ∧
    ((processTaskToToday env0 c1t ("2026-10-12")).1).hopper = 1 / 2 ∧
    ((processTaskToToday env0 c1t ("2026-10-12")).1).streak = 2 ∧
    ((processTaskToToday env0 c1t ("2026-10-12")).1).securedToday = false :=
  c1_multi_day_catchup env0 c1t ("2026-10-12") (by decide) (by decide) (by decide)
    (by decide) (by decide)

/-- Counterexample for C3 as stated: a task with streak 3, unsecured,
hopper 2.5, advanced by exactly one day, ends with streak 1, not 0 —
after the decay the hopper is still 1.5, so the new day auto-secures. -/
theorem c3_counterexample :
    0 < c3t.streak ∧ c3t.securedToday = false ∧
    dayDiff env0.nowDays c3t.dayKey ("2026-10-12") = 1 ∧
    ((processTaskToToday env0 c3t ("2026-10-12")).1).streak ≠ 0 ∧
    ((processTaskToToday env0 c3t ("2026-10-12")).1).streak = 1 := by
  decide

/-- Claim C3 (amended): for every task with a positive streak that is
not secured on its current day, advancing by exactly one day yields
streak 0, provided the hopper is below `2 - 1e-9` (otherwise the
post-decay hopper still reaches the threshold and the rollover
auto-secure immediately sets the streak to 1). -/
theorem c3_streak_breaks_after_one_day (env : Env) (t : Task) (todayKey : String)
    (hfmt : isDayKeyFormat t.dayKey = true)
    (hahead : ¬ jsStrLt todayKey t.dayKey)
    (hdiff : dayDiff env.nowDays t.dayKey todayKey = 1)
    (hs : t.securedToday = false)
    (_hstreak : 0 < t.streak)
    (hhop : t.hopper < 2 - EPS) :
    ((processTaskToToday env t todayKey).1).streak = 0 := by
  have heq : processTaskToToday env t todayKey = rolloverStep env (t, false) := by
    rw [processTaskToToday_eq env t todayKey hfmt hahead, hdiff, if_neg (by norm_num)]
    rfl
  have hno : ¬ (DAILY_THRESHOLD - EPS ≤ jsMax 0 (t.hopper - 1)) := by
    unfold jsMax DAILY_THRESHOLD
    split_ifs with hx
    · intro hcon
      have h2 : t.hopper - 1 < 1 - EPS := by linarith
      linarith
    · intro hcon
      have : (0 : ℚ) < 1 - EPS := by norm_num [EPS]
      linarith
  rw [heq, rolloverStep_streak_unsecured env (t, false) hs]
  show (if DAILY_THRESHOLD - EPS ≤ jsMax 0 (t.hopper - 1) then (1 : ℚ) else 0) = 0
  rw [if_neg hno]

/-- Witness for C3 (amended), on the concrete task `c3w`. -/
theorem c3_witness : ((processTaskToToday env0 c3w ("2026-10-12")).1).streak = 0 :=
  c3_streak_breaks_after_one_day env0 c3w ("2026-10-12") (by decide) (by decide)
    (by decide) (by decide) (by decide) (by decide)


/-- Counterexample for C7 as stated: the record `rawBad` has a
wrong-typed value in every field, yet the normalizer maps its hopper —
the string "-5", which `Number(·)` coerces to the finite value -5 — to
a negative hopper, violating the data-model invariant `hopper ≥ 0`. -/
theorem c7_counterexample :
    rawBad.allWrongTyped ∧
    (normalizeTask ("fresh") 0 ("2026-10-12") (some rawBad)).hopper = -5 ∧
    (normalizeTask ("fresh") 0 ("2026-10-12") (some rawBad)).hopper < 0 := by
  decide

/-- Claim C7 (amended): fed an empty object, `null`, or a record with
wrong-typed fields for every field, the normalizer never raises (it is
a total function here) and its output satisfies the invariants — the
name is non-empty, the streak is 0, the day key is well-formed,
`securedToday` is false, the thumbnail is cleared — and the hopper is
non-negative provided the wrong-typed hopper value does not coerce to a
negative finite number (e.g. the string "-5", see the
counterexample). -/
theorem c7_normalizer_total_safety (freshId : String) (now : ℚ) (todayKey : String)
    (raw : Option RawTask)
    (htoday : isDayKeyFormat todayKey = true)
    (hw : ∀ r, raw = some r → r.allWrongTyped) :
    (normalizeTask freshId now todayKey raw).name ≠ "" ∧
    (normalizeTask freshId now todayKey raw).streak = 0 ∧
    isDayKeyFormat (normalizeTask freshId now todayKey raw).dayKey = true ∧
    (normalizeTask freshId now todayKey raw).securedToday = false ∧
    (normalizeTask freshId now todayKey raw).thumbnailUrl = none ∧
    (∀ q : ℚ, asSafeNumber (raw.getD emptyRawTask).hopper (.fin 0) = .fin q → 0 ≤ q →
      0 ≤ (normalizeTask freshId now todayKey raw).hopper) := by
  cases raw with
  | none =>
    refine ⟨by show ("Untitled task" : String) ≠ ""; decide, rfl, htoday, rfl, rfl, ?_⟩
    intro q hq hq0
    have hq' : asSafeNumber JSPrim.undef (.fin 0) = .fin q := hq
    show 0 ≤ roundTo (asSafeNumber JSPrim.undef (.fin 0))
    rw [hq']
    exact roundTo_nonneg q hq0
  | some r =>
    rcases hw r rfl with ⟨hid, hname, hthumb, hhop, hstr, hday, hsec, hcA, hcU, hlA, hlR⟩
    refine ⟨?_, ?_, ?_, ?_, ?_, ?_⟩
    · cases hx : r.name <;> simp_all [normalizeTask, JSPrim.isStr]
    · cases hx : r.streak <;> simp_all [normalizeTask, JSPrim.isNum]
    · cases hx : r.dayKey <;> simp_all [normalizeTask, JSPrim.isStr]
    · cases hx : r.securedToday <;> simp_all [normalizeTask, JSPrim.isBool]
    · cases hx : r.thumbnailUrl <;> simp_all [normalizeTask, JSPrim.isStr]
    · intro q hq hq0
      have hq' : asSafeNumber r.hopper (.fin 0) = .fin q := hq
      show 0 ≤ roundTo (asSafeNumber r.hopper (.fin 0))
      rw [hq']
      exact roundTo_nonneg q hq0

/-- Witness for C7 (amended), on a `null` raw record. -/
theorem c7_witness :
    (normalizeTask ("fresh") 0 ("2026-10-12") none).name ≠ "" ∧
    (normalizeTask ("fresh") 0 ("2026-10-12") none).streak = 0 ∧
    isDayKeyFormat (normalizeTask ("fresh") 0 ("2026-10-12") none).dayKey = true ∧
    (normalizeTask ("fresh") 0 ("2026-10-12") none).securedToday = false ∧
    (normalizeTask ("fresh") 0 ("2026-10-12") none).thumbnailUrl = none ∧
    (∀ q : ℚ, asSafeNumber ((none : Option RawTask).getD emptyRawTask).hopper (.fin 0) = .fin q →
      0 ≤ q → 0 ≤ (normalizeTask ("fresh") 0 ("2026-10-12") none).hopper) :=
  c7_normalizer_total_safety ("fresh") 0 ("2026-10-12") none (by decide)
    (fun r hr => nomatch hr)

end Carryover
